import Mathlib

/-!
Shallow embedding of `python_source_code/db.py` (repository `summer`), the
normalization layer for UN demographic / vaccination-coverage spreadsheets.

Modelling conventions:
* A pandas `DataFrame` read back from SQL is a `Frame`: a list of column
  labels and a list of rows, each row a list of cells.
* A cell is a `Value`: SQL NULL (which pandas surfaces as `None` in the
  single-row object-dtype path used by the extractors), a number (modelled
  exactly over `ℚ` instead of IEEE floats), or a string.
* The SQLite store is a `DB`: a partial map from table name to `Frame`.
* Python operations that can raise (`df.loc[0, :]` on an empty frame,
  `df.loc[:, cols]` with a missing label, `int(...)` / `float(...)` on a
  non-numeric string, SQL errors) are modelled with `Option`: `none` is an
  exception propagating to the caller.
* Python `dict` comprehensions are modelled by `pyDict`: entries inserted
  left to right, a later entry with an equal key overwriting the earlier
  value in place.
-/

set_option autoImplicit false

/-- A cell of a table: SQL NULL / Python `None`, a number, or a string.
SQLite numeric affinity coercions are not modelled (never exercised here:
the filters used by `db.py` compare text columns with text values). -/
inductive Value where
  | null : Value
  | num (q : ℚ) : Value
  | str (s : String) : Value
deriving DecidableEq, Repr

/-- `true` exactly on the NULL cell. -/
def isNullV : Value → Bool
  | Value.null => true
  | _ => false

/-- `true` exactly on string cells. -/
def isStrV : Value → Bool
  | Value.str _ => true
  | _ => false

/-- A data frame as read back from the SQLite store: column labels plus
row-major cells. -/
structure Frame where
  cols : List String
  rows : List (List Value)
deriving DecidableEq, Repr

/-- The SQLite store: a partial map from table name to its current frame. -/
def DB : Type := String → Option Frame

/-- A store holding a single table, for concrete instances. -/
def mkDB (name : String) (f : Frame) : DB :=
  fun t => if t = name then some f else none

/-- A store holding two tables, for concrete instances. -/
def mkDB2 (n1 : String) (f1 : Frame) (n2 : String) (f2 : Frame) : DB :=
  fun t => if t = n1 then some f1 else if t = n2 then some f2 else none

/-- The cell of row `r` under the column labelled `c` (first matching label,
as in a pandas frame with unique labels). Out-of-range access yields NULL;
it is unreachable for the aligned frames the store holds. -/
def cellAt (cols : List String) (r : List Value) (c : String) : Value :=
  match cols.findIdx? (fun x => x == c) with
  | some i => r.getD i Value.null
  | none => Value.null

/-- SQL equality `column = 'literal'` between a cell and a quoted string:
true only for a text cell with identical contents. -/
def valEqStr (v : Value) (s : String) : Bool :=
  match v with
  | Value.str t => t == s
  | _ => false

/-- `pandas.DataFrame.filter(items=...)`: keep the listed columns (those
that exist), in the listed order. -/
def filterItems (f : Frame) (items : List String) : Frame :=
  { cols := items.filter (fun c => f.cols.contains c),
    rows := f.rows.map fun r =>
      (items.filter (fun c => f.cols.contains c)).map (cellAt f.cols r) }

/-- `df.loc[:, keep]` / `df[[...]]`: column selection that raises `KeyError`
(`none`) whenever a requested label is absent. -/
def locCols (f : Frame) (keep : List String) : Option Frame :=
  if keep.all (fun c => f.cols.contains c) then
    some { cols := keep, rows := f.rows.map fun r => keep.map (cellAt f.cols r) }
  else none

/-- `InputDB.db_query`: `Select column from table_name`, plus
`Where is_filter = 'value'` exactly when both `is_filter` and `value` are
non-empty strings (Python truthiness of `if is_filter and value`).
`none` models the SQL errors: missing table, missing filter column,
missing projected column. -/
def db_query (db : DB) (table_name is_filter value column : String) : Option Frame :=
  (db table_name).bind fun f =>
    (if is_filter ≠ "" ∧ value ≠ "" then
      if f.cols.contains is_filter then
        some { cols := f.cols,
               rows := f.rows.filter fun r => valEqStr (cellAt f.cols r is_filter) value }
      else none
    else some f).bind fun g =>
      if column = "*" then some g else locCols g [column]

/-- Python `str.isdigit`: non-empty and all characters are digits. -/
def isDigitStr (s : String) : Bool :=
  !(s == "") && s.data.all (fun c => c.isDigit)

/-- Python `"-" in key` for the single-character hyphen. (Written over the
character list so the kernel can evaluate it.) -/
def hasHyphen (s : String) : Bool :=
  s.data.contains '-'

/-- Python `key[: key.find("-")]` when `key` contains a hyphen: the prefix
of the label before its first hyphen. -/
def beforeHyphen (s : String) : String :=
  String.mk (s.data.takeWhile (fun c => !(c == '-')))

/-- The numeric value of a decimal digit character. -/
def digitVal (c : Char) : Nat :=
  c.toNat - 48

/-- Decimal parsing of a digit-only string, `none` otherwise: the
behaviour of `String.toNat?` restated over the character list so the
kernel can evaluate it (Python `int(s)` on unsigned digit literals). -/
def strToNat? (s : String) : Option Nat :=
  if !(s.data.isEmpty) && s.data.all (fun c => c.isDigit) then
    some (s.data.foldl (fun n c => n * 10 + digitVal c) 0)
  else none

/-- Python `int(s)` on the digit strings produced by the header rules. -/
def pyInt (s : String) : Int :=
  (((strToNat? s).getD 0 : Nat) : Int)

/-- Python `int(s)`, `none` on `ValueError` (non-digit input). -/
def pyIntOpt (s : String) : Option Int :=
  (strToNat? s).map Int.ofNat

/-- Python `float(s)` on the year prefixes of range labels, `none` on
`ValueError`. Decimal-point and signed literals never occur at this call
site and are not modelled. -/
def pyFloatOpt (s : String) : Option ℚ :=
  (strToNat? s).map (fun n => (n : ℚ))

/-- Python `float(value)` on a cell: numbers pass through, numeric strings
parse, `float(None)` is a `TypeError` (`none`). -/
def valFloatOpt (v : Value) : Option ℚ :=
  match v with
  | Value.num q => some q
  | Value.str s => pyFloatOpt s
  | Value.null => none

/-- Python `str(x)` on a cell. String cells pass through; the float
rendering of non-integral numbers is approximated (never reached by the
theorems below, which exercise string-valued date cells). -/
def pyStr : Value → String
  | Value.str s => s
  | Value.num q => if q.den = 1 then toString q.num ++ ".0" else toString q.num ++ "/" ++ toString q.den
  | Value.null => "None"

/-- `s[: s.find("-")] if "-" in s else s`: the leading substring before the
first hyphen, or the whole string when no hyphen occurs. -/
def hyphenHead (s : String) : String :=
  if hasHyphen s then beforeHyphen s else s

/-- Python `dict` insertion: an existing key keeps its position and takes
the new value, a new key is appended. -/
def pyDictInsert {K V : Type} [DecidableEq K] (d : List (K × V)) (kv : K × V) : List (K × V) :=
  if d.any (fun p => decide (p.1 = kv.1)) then
    d.map fun p => if p.1 = kv.1 then (p.1, kv.2) else p
  else d ++ [kv]

/-- The mapping built by a Python `dict` comprehension over `l`, later
entries overwriting earlier ones with an equal key. -/
def pyDict {K V : Type} [DecidableEq K] (l : List (K × V)) : List (K × V) :=
  l.foldl pyDictInsert []

/-- The body of the `get_bcg_coverage` comprehension over
`zip(columns, row)`: `None` cells are skipped by `if value is not None`,
numeric cells yield `int(key) ↦ value / 1e2`, and a string cell is a
`TypeError` in `value / 1e2` (`none`). -/
def bcgPairs : List (String × Value) → Option (List (Int × ℚ))
  | [] => some []
  | (k, v) :: rest =>
    match v with
    | Value.null => bcgPairs rest
    | Value.num q => (bcgPairs rest).map (fun l => (pyInt k, q / 100) :: l)
    | Value.str _ => none

/-- `get_bcg_coverage(database, country_iso_code)`: query the `BCG` table
filtered on `ISO_code`, keep the digit-labelled columns, and build the
year ↦ coverage dict from row 0. `df.loc[0, :]` on a zero-row result is a
`KeyError` (`none`). -/
def get_bcg_coverage (db : DB) (country_iso_code : String) : Option (List (Int × ℚ)) :=
  (db_query db "BCG" "ISO_code" country_iso_code "*").bind fun f =>
    let f2 := filterItems f (f.cols.filter isDigitStr)
    (f2.rows.head?).bind fun row =>
      (bcgPairs (f2.cols.zip row)).map pyDict

/-- The body of the `get_crude_birth_rate` comprehension: hyphen-free
labels are skipped, a hyphenated label yields
`float(start) + 2.5 ↦ float(value) / 1e3`, and a failing `float(...)`
conversion (including `float(None)`) aborts the comprehension (`none`). -/
def cbrPairs : List (String × Value) → Option (List (ℚ × ℚ))
  | [] => some []
  | (k, v) :: rest =>
    if hasHyphen k then
      match pyFloatOpt (beforeHyphen k), valFloatOpt v with
      | some a, some b => (cbrPairs rest).map (fun l => (a + 5 / 2, b / 1000) :: l)
      | _, _ => none
    else cbrPairs rest

/-- `get_crude_birth_rate(database, country_iso_code)`: query
`crude_birth_rate_mapped` filtered on `iso3` and build the
range-midpoint ↦ per-capita-rate dict from row 0 over all columns.
`df.loc[0, :]` on a zero-row result is a `KeyError` (`none`). -/
def get_crude_birth_rate (db : DB) (country_iso_code : String) : Option (List (ℚ × ℚ)) :=
  (db_query db "crude_birth_rate_mapped" "iso3" country_iso_code "*").bind fun f =>
    (f.rows.head?).bind fun row =>
      (cbrPairs (f.cols.zip row)).map pyDict

/-- A normalized column label after the demographic reshape: either the
integer lower bound of an age band or a passed-through string label. -/
inductive Lbl where
  | i (n : Int) : Lbl
  | s (t : String) : Lbl
deriving DecidableEq, Repr

/-- The reshaped table returned by `extract_demo_data`: its columns carry
mixed integer/string labels. -/
structure DemoFrame where
  cols : List Lbl
  rows : List (List Value)
deriving DecidableEq, Repr

/-- `mapM` over `Option`, written as plain recursion so proofs can unfold
it: the first `none` (a raised exception) aborts the whole list. -/
def mapOpt {A B : Type} (f : A → Option B) : List A → Option (List B)
  | [] => some []
  | a :: l => (f a).bind fun b => (mapOpt f l).map fun bl => b :: bl

/-- The column rename of `extract_demo_data`: the open top age band gets a
synthetic hyphen and the reference-date column becomes `Period`. -/
def demoRename (c : String) : String :=
  if c = "95+" then "95-" else
  if c = "Reference date (as of 1 July)" then "Period" else c

/-- The column relabelling of `extract_demo_data`:
`int(column[: column.find("-")]) if "-" in column else column`, with
`none` for the `ValueError` of `int(...)` on a non-digit prefix. -/
def demoRelabel (c : String) : Option Lbl :=
  if hasHyphen c then (pyIntOpt (beforeHyphen c)).map Lbl.i
  else some (Lbl.s c)

/-- The `Period`-column cell update of `extract_demo_data`:
`str(x)[: str(x).find("-")] if "-" in str(x) else str(x)`. -/
def periodCell (v : Value) : Value :=
  Value.str (hyphenHead (pyStr v))

/-- `extract_demo_data(_input_database, data_type, country_iso_code)`:
query the table filtered on `iso3`, rename `95+` and the reference-date
column, keep exactly the hyphenated columns plus `Period`, recast the
kept labels, and reduce each `Period` value to its leading substring
before any hyphen, as a string. -/
def extract_demo_data (db : DB) (data_type country_iso_code : String) : Option DemoFrame :=
  (db_query db data_type "iso3" country_iso_code "*").bind fun f =>
    let f1 : Frame := { cols := f.cols.map demoRename, rows := f.rows }
    let keep := (f1.cols.filter hasHyphen) ++ ["Period"]
    (locCols f1 keep).bind fun f2 =>
      (mapOpt demoRelabel f2.cols).map fun newCols =>
        { cols := newCols,
          rows := f2.rows.map fun r =>
            (newCols.zip r).map fun p =>
              if p.1 = Lbl.s "Period" then periodCell p.2 else p.2 }

/-- The `InputDB` object: the SQLite store plus the lazily built crosswalk
frame `map_df` (initially Python `None`). -/
structure InputDB where
  db : DB
  map_df : Option Frame

/-- `pandas.DataFrame.dropna()`: drop every row containing a missing
value. -/
def dropna (f : Frame) : Frame :=
  { cols := f.cols, rows := f.rows.filter fun r => !(r.any isNullV) }

/-- `InputDB.get_un_iso_map` as the value it stores into `map_df`:
`db_query('un_iso3_map')[['Location code', 'ISO3 Alpha-code']].dropna()`.
`none` models a missing table or a `KeyError` on the column selection. -/
def get_un_iso_map (db : DB) : Option Frame :=
  (db_query db "un_iso3_map" "" "" "*").bind fun f =>
    (locCols f ["Location code", "ISO3 Alpha-code"]).map dropna

/-- Running the `get_un_iso_map` method on the object: on success the
crosswalk is (re)assigned to `map_df`; a raised error (`none`) leaves no
resulting state. -/
def runGetUnIsoMap (s : InputDB) : Option InputDB :=
  (get_un_iso_map s.db).map fun m => { s with map_df := some m }

/-- `pd.merge(left, right, left_on, right_on)` with inner-join semantics:
each left row is paired with every right row whose key cell equals its
own; unmatched left rows disappear. Suffixing of colliding non-key column
names is not modelled (row counts and key membership do not depend on
it). -/
def innerMerge (left right : Frame) (lk rk : String) : Frame :=
  { cols := left.cols ++ right.cols,
    rows := left.rows.flatMap fun lr =>
      (right.rows.filter fun rr =>
        decide (cellAt right.cols rr rk = cellAt left.cols lr lk)).map
        fun rr => lr ++ rr }

/-- The post-merge rename of `add_iso_to_table`:
`"ISO3 Alpha-code" → "iso3"`. -/
def renameIsoCol (c : String) : String :=
  if c = "ISO3 Alpha-code" then "iso3" else c

/-- `df.drop(columns=[c])`: remove every column labelled `c`. -/
def dropColumn (f : Frame) (c : String) : Frame :=
  { cols := f.cols.filter (fun x => !(x == c)),
    rows := f.rows.map fun r =>
      ((f.cols.zip r).filter (fun p => !(p.1 == c))).map Prod.snd }

/-- `InputDB.add_iso_to_table(table_name)`: rebuild the crosswalk, inner
join the table against it on `Country code = Location code`, rename the
alpha-code column to `iso3`, drop an artifact `Index` column when present,
and store the result under `table_name + "_mapped"`. `none` models the
errors raised on a missing table, missing crosswalk columns, or a missing
merge key column. -/
def add_iso_to_table (s : InputDB) (table_name : String) : Option InputDB :=
  (get_un_iso_map s.db).bind fun m =>
    (db_query s.db table_name "" "" "*").bind fun t =>
      if t.cols.contains "Country code" then
        some { db := fun n =>
                 if n = table_name ++ "_mapped" then
                   some (let merged := innerMerge t m "Country code" "Location code"
                         let renamed : Frame :=
                           { cols := merged.cols.map renameIsoCol, rows := merged.rows }
                         if renamed.cols.contains "Index" then dropColumn renamed "Index"
                         else renamed)
                 else s.db n,
               map_df := some m }
      else none

/-- The native-code key cell of a row, used on both sides of the
`add_iso_to_table` merge. -/
def keyCell (f : Frame) (c : String) (r : List Value) : Value :=
  cellAt f.cols r c

/-! ## Helper lemmas -/

/-- Zipping a list with its own image is mapping into pairs. -/
lemma zipSelfMap {A B : Type} (g : A → B) (l : List A) :
    l.zip (l.map g) = l.map (fun a => (a, g a)) := by
  induction l with
  | nil => rfl
  | cons a l ih => simp [ih]

/-- On a pair list without string values, the `get_bcg_coverage`
comprehension succeeds and keeps exactly the numeric entries, each divided
by 100; `None` entries are dropped. -/
lemma bcgPairs_no_str (l : List (String × Value)) (h : ∀ p ∈ l, isStrV p.2 = false) :
    bcgPairs l = some (l.filterMap fun p =>
      match p.2 with
      | Value.num q => some (pyInt p.1, q / 100)
      | _ => none) := by
  induction l with
  | nil => rfl
  | cons p l ih =>
    obtain ⟨k, v⟩ := p
    have htl : ∀ q ∈ l, isStrV q.2 = false := fun q hq => h q (List.mem_cons_of_mem _ hq)
    cases v with
    | null => simpa [bcgPairs] using ih htl
    | num q => simp [bcgPairs, ih htl]
    | str s =>
      have hc := h (k, Value.str s) (by simp)
      simp [isStrV] at hc

/-- When the mapped keys of `R` are pairwise distinct, at most one element
of `R` carries any given key. -/
lemma filterKeyLenLeOne {A : Type} (R : List A) (keyOf : A → Value) (k : Value)
    (h : (R.map keyOf).Nodup) :
    (R.filter fun r => decide (keyOf r = k)).length ≤ 1 := by
  induction R with
  | nil => simp
  | cons r R ih =>
    rw [List.map_cons, List.nodup_cons] at h
    by_cases hk : keyOf r = k
    · rw [List.filter_cons_of_pos (by simpa using hk)]
      have hnil : R.filter (fun r2 => decide (keyOf r2 = k)) = [] := by
        rw [List.filter_eq_nil_iff]
        intro a ha
        simp only [decide_eq_true_eq]
        intro hak
        refine h.1 ?_
        rw [hk, ← hak]
        exact List.mem_map_of_mem keyOf ha
      simp [hnil]
    · rw [List.filter_cons_of_neg (by simpa using hk)]
      exact ih h.2

/-- Some element of `R` carries the key `k` exactly when `k` occurs among
the mapped keys. -/
lemma filterKeyLenPos {A : Type} (R : List A) (keyOf : A → Value) (k : Value) :
    0 < (R.filter fun r => decide (keyOf r = k)).length ↔ k ∈ R.map keyOf := by
  constructor
  · intro hpos
    obtain ⟨a, ha⟩ := List.exists_mem_of_length_pos hpos
    have hmem := List.mem_filter.mp ha
    have hak : keyOf a = k := by simpa using hmem.2
    exact hak ▸ List.mem_map_of_mem keyOf hmem.1
  · intro hk
    obtain ⟨a, ha, hak⟩ := List.mem_map.mp hk
    have hmem : a ∈ R.filter fun r => decide (keyOf r = k) :=
      List.mem_filter.mpr ⟨ha, by simp [hak]⟩
    exact List.length_pos.mpr (List.ne_nil_of_mem hmem)

/-- Row-count bound of an inner join whose right keys are pairwise
distinct: at most one output row per left row, with equality exactly when
every left key occurs on the right. -/
lemma mergeLenBounds (L R : List (List Value)) (kl kr : List Value → Value)
    (h : (R.map kr).Nodup) :
    (L.flatMap fun lr =>
      (R.filter fun rr => decide (kr rr = kl lr)).map fun rr => lr ++ rr).length ≤ L.length ∧
    ((L.flatMap fun lr =>
        (R.filter fun rr => decide (kr rr = kl lr)).map fun rr => lr ++ rr).length = L.length
      ↔ ∀ lr ∈ L, kl lr ∈ R.map kr) := by
  induction L with
  | nil => simp
  | cons lr L ih =>
    obtain ⟨ih1, ih2⟩ := ih
    have hle := filterKeyLenLeOne R kr (kl lr) h
    have hpos := filterKeyLenPos R kr (kl lr)
    constructor
    · simp only [List.flatMap_cons, List.length_append, List.length_map, List.length_cons]
      omega
    · simp only [List.flatMap_cons, List.length_append, List.length_map, List.length_cons,
        List.forall_mem_cons]
      constructor
      · intro hEq
        exact ⟨hpos.mp (by omega), ih2.mp (by omega)⟩
      · rintro ⟨hmem, hall⟩
        have hc1 := hpos.mpr hmem
        have hrest := ih2.mpr hall
        omega

/-- Dropping a column never changes the number of rows. -/
lemma dropColumn_rows_length (f : Frame) (c : String) :
    (dropColumn f c).rows.length = f.rows.length := by
  simp [dropColumn]

/-! ## Claims -/

/-- Claim C1 (code_bug evidence). The spec requires a zero-row
single-country query to yield an empty series, but `get_bcg_coverage` and
`get_crude_birth_rate` evaluate `df.loc[0, :]` on the empty result and
raise a `KeyError` (modelled as `none`); only `extract_demo_data` returns
an empty (zero-row) result as the spec demands. -/
theorem c1_zero_rows_raise :
    get_bcg_coverage
      (mkDB "BCG" ⟨["ISO_code", "1980"], [[Value.str "AFG", Value.num 50]]⟩) "MNG" = none ∧
    get_crude_birth_rate
      (mkDB "crude_birth_rate_mapped" ⟨["iso3", "1980-1984"], [[Value.str "AFG", Value.num 20]]⟩)
      "MNG" = none ∧
    extract_demo_data
      (mkDB "total_population_mapped"
        ⟨["iso3", "0-4", "Reference date (as of 1 July)"],
         [[Value.str "AFG", Value.num 1, Value.str "1950-1955"]]⟩)
      "total_population_mapped" "MNG" = some ⟨[Lbl.i 0, Lbl.s "Period"], []⟩ :=
  ⟨by decide, by decide, by decide⟩

/-- Claim C2 (counterexample). A single-country query returning two rows
does not raise any error: both extractors silently build the series from
the first returned row (the values 50 and 20 of row 0, not the values of
row 1), refuting the claimed AmbiguousRow error condition. -/
theorem c2_counterexample :
    get_bcg_coverage
      (mkDB "BCG" ⟨["ISO_code", "1980"],
        [[Value.str "MNG", Value.num 50], [Value.str "MNG", Value.num 60]]⟩) "MNG"
      = some [(1980, (50 : ℚ) / 100)] ∧
    get_crude_birth_rate
      (mkDB "crude_birth_rate_mapped" ⟨["iso3", "1950-1954"],
        [[Value.str "MNG", Value.num 20], [Value.str "MNG", Value.num 30]]⟩) "MNG"
      = some [(((1950 : ℕ) : ℚ) + 5 / 2, (20 : ℚ) / 1000)] :=
  ⟨rfl, rfl⟩

/-- Claim C2 (amended). When the filtered single-country query returns
more than one row, series extraction silently uses the first returned row
(`df.loc[0, :]`) and ignores the rest: the result is identical to the
result on the truncated single-row table. -/
theorem c2_amended (cs : List String) (iso : String) (hiso : iso ≠ "")
    (v0 : List Value) (vrest : List (List Value)) :
    get_bcg_coverage
      (mkDB "BCG" ⟨"ISO_code" :: cs,
        (Value.str iso :: v0) :: vrest.map (fun r => Value.str iso :: r)⟩) iso
    = get_bcg_coverage (mkDB "BCG" ⟨"ISO_code" :: cs, [Value.str iso :: v0]⟩) iso ∧
    get_crude_birth_rate
      (mkDB "crude_birth_rate_mapped" ⟨"iso3" :: cs,
        (Value.str iso :: v0) :: vrest.map (fun r => Value.str iso :: r)⟩) iso
    = get_crude_birth_rate
        (mkDB "crude_birth_rate_mapped" ⟨"iso3" :: cs, [Value.str iso :: v0]⟩) iso := by
  constructor <;>
    simp [get_bcg_coverage, get_crude_birth_rate, db_query, mkDB, filterItems, cellAt,
      valEqStr, hiso, List.filter_cons, List.findIdx?_cons]

/-- Claim C2 (amended, witness). Concrete instance of `c2_amended` with a
two-row table. -/
theorem c2_amended_witness :
    get_bcg_coverage
      (mkDB "BCG" ⟨["ISO_code", "1980"],
        [[Value.str "MNG", Value.num 50], [Value.str "MNG", Value.num 60]]⟩) "MNG"
    = get_bcg_coverage
        (mkDB "BCG" ⟨["ISO_code", "1980"], [[Value.str "MNG", Value.num 50]]⟩) "MNG" ∧
    get_crude_birth_rate
      (mkDB "crude_birth_rate_mapped" ⟨["iso3", "1980"],
        [[Value.str "MNG", Value.num 50], [Value.str "MNG", Value.num 60]]⟩) "MNG"
    = get_crude_birth_rate
        (mkDB "crude_birth_rate_mapped" ⟨["iso3", "1980"], [[Value.str "MNG", Value.num 50]]⟩)
        "MNG" :=
  c2_amended ["1980"] "MNG" (by decide) [Value.num 50] [[Value.num 60]]

/-- Claim C3 (counterexample). In coverage mode the label `95+` is never
mapped to 97.5: neither coverage-style extractor rewrites `95+` to `95-`,
so the column is simply excluded (it is neither all-digit nor hyphenated)
and the resulting series is empty. -/
theorem c3_counterexample :
    get_crude_birth_rate
      (mkDB "crude_birth_rate_mapped" ⟨["iso3", "95+"], [[Value.str "MNG", Value.num 88]]⟩)
      "MNG" = some [] ∧
    get_bcg_coverage
      (mkDB "BCG" ⟨["ISO_code", "95+"], [[Value.str "MNG", Value.num 88]]⟩) "MNG" = some [] :=
  ⟨by decide, by decide⟩

/-- Claim C3 (amended). Header parsing is deterministic: `1980` maps to
the integer key 1980 (digit rule of the coverage extractor), `1980-1984`
maps to 1980 + 2.5 = 1982.5 (range rule of the birth-rate extractor), and
`95+` is excluded at both coverage-style call sites; the `95+` to `95-`
rewrite exists only in demographic mode, where the label yields the
integer 95. -/
theorem c3_amended :
    get_bcg_coverage
      (mkDB "BCG" ⟨["ISO_code", "1980"], [[Value.str "MNG", Value.num 80]]⟩) "MNG"
      = some [(1980, (80 : ℚ) / 100)] ∧
    get_crude_birth_rate
      (mkDB "crude_birth_rate_mapped" ⟨["iso3", "1980-1984"], [[Value.str "MNG", Value.num 20]]⟩)
      "MNG" = some [(((1980 : ℕ) : ℚ) + 5 / 2, (20 : ℚ) / 1000)] ∧
    ((1980 : ℕ) : ℚ) + 5 / 2 = 1982.5 ∧
    get_crude_birth_rate
      (mkDB "crude_birth_rate_mapped" ⟨["iso3", "95+"], [[Value.str "MNG", Value.num 95]]⟩)
      "MNG" = some [] ∧
    extract_demo_data
      (mkDB "total_population_mapped"
        ⟨["iso3", "95+", "Reference date (as of 1 July)"],
         [[Value.str "MNG", Value.num 7, Value.str "1990-1995"]]⟩)
      "total_population_mapped" "MNG"
      = some ⟨[Lbl.i 95, Lbl.s "Period"], [[Value.num 7, Value.str "1990"]]⟩ :=
  ⟨rfl, rfl, by norm_num, by decide, by decide⟩

/-- Claim C4. Series extraction applies the indicator's unit conversion:
every coverage value is divided by 100 and every crude-birth-rate value by
1000; in particular 87/100 = 0.87 and 34.2/1000 = 0.0342. -/
theorem c4_unit_conversion (v w : ℚ) :
    get_bcg_coverage
      (mkDB "BCG" ⟨["ISO_code", "1999"], [[Value.str "MNG", Value.num v]]⟩) "MNG"
      = some [(1999, v / 100)] ∧
    get_crude_birth_rate
      (mkDB "crude_birth_rate_mapped" ⟨["iso3", "1980-1984"], [[Value.str "MNG", Value.num w]]⟩)
      "MNG" = some [(((1980 : ℕ) : ℚ) + 5 / 2, w / 1000)] ∧
    (87 : ℚ) / 100 = 0.87 ∧ (34.2 : ℚ) / 1000 = 0.0342 :=
  ⟨rfl, rfl, by norm_num, by norm_num⟩

/-- Claim C5. In coverage extraction any entry whose source value is null
is excluded from the returned series (not coerced to zero), and every
non-null (numeric) entry is retained: the series is exactly the
`filterMap` over the digit columns that keeps the numeric cells. -/
theorem c5_null_dropped (cols : List String) (row : List Value)
    (h : ∀ c ∈ cols.filter isDigitStr, isStrV (cellAt cols row c) = false) :
    get_bcg_coverage (mkDB "BCG" ⟨cols, [row]⟩) ""
    = some (pyDict (((cols.filter isDigitStr).map fun c => (c, cellAt cols row c)).filterMap
        fun p => match p.2 with
        | Value.num q => some (pyInt p.1, q / 100)
        | _ => none)) := by
  have hfe : List.filter (fun a => decide (a ∈ cols) && isDigitStr a) cols
      = List.filter isDigitStr cols := by
    apply List.filter_congr
    intro a ha
    simp [ha]
  have hq : db_query (mkDB "BCG" ⟨cols, [row]⟩) "BCG" "ISO_code" "" "*"
      = some ⟨cols, [row]⟩ := by
    simp [db_query, mkDB]
  have hfi : filterItems ⟨cols, [row]⟩ (cols.filter isDigitStr)
      = ⟨cols.filter isDigitStr, [(cols.filter isDigitStr).map (cellAt cols row)]⟩ := by
    simp [filterItems]
    exact ⟨hfe, by rw [hfe]⟩
  have hp : ∀ p ∈ (cols.filter isDigitStr).map (fun c => (c, cellAt cols row c)),
      isStrV p.2 = false := by
    intro p hp
    obtain ⟨c, hc, rfl⟩ := List.mem_map.mp hp
    exact h c hc
  rw [get_bcg_coverage, hq]
  simp only [Option.some_bind, hfi, List.head?_cons, zipSelfMap,
    bcgPairs_no_str _ hp, Option.map_some]
  rfl

/-- Claim C5 (witness). Concrete instance of `c5_null_dropped`: a row with
one null and one numeric cell. -/
theorem c5_null_dropped_witness :
    get_bcg_coverage
      (mkDB "BCG" ⟨["ISO_code", "1999", "2000"],
        [[Value.str "MNG", Value.null, Value.num 87]]⟩) ""
    = some (pyDict ((((["ISO_code", "1999", "2000"] : List String).filter isDigitStr).map
        fun c => (c, cellAt ["ISO_code", "1999", "2000"]
          [Value.str "MNG", Value.null, Value.num 87] c)).filterMap
        fun p => match p.2 with
        | Value.num q => some (pyInt p.1, q / 100)
        | _ => none)) :=
  c5_null_dropped _ _ (by decide)

/-- Claim C6. The demographic reshape renames `95+` to the hyphenated
band `95-`, keeps exactly the hyphenated age-band columns plus the period
column, recasts the kept labels to their integer lower bounds (so `95+`
yields 95), and reduces each date value to its leading substring before
any hyphen, as a string; non-hyphenated columns such as the country code
and free-text columns are dropped. -/
theorem c6_demo_reshape (iso : String) (data : List (Value × Value × Value × String)) :
    extract_demo_data
      (mkDB "total_population_mapped"
        ⟨["iso3", "0-4", "95+", "Notes", "Reference date (as of 1 July)"],
         data.map fun t => [Value.str iso, t.1, t.2.1, t.2.2.1, Value.str t.2.2.2]⟩)
      "total_population_mapped" iso
    = some ⟨[Lbl.i 0, Lbl.i 95, Lbl.s "Period"],
            data.map fun t => [t.1, t.2.1, Value.str (hyphenHead t.2.2.2)]⟩ := by
  by_cases hiso : iso = ""
  · subst hiso
    simp [extract_demo_data, db_query, mkDB, locCols, demoRename, demoRelabel, mapOpt,
      cellAt, hasHyphen, beforeHyphen, pyIntOpt, strToNat?, digitVal, periodCell,
      pyStr, hyphenHead, List.findIdx?_cons, List.getD]
  · simp [extract_demo_data, db_query, mkDB, locCols, demoRename, demoRelabel, mapOpt,
      cellAt, hasHyphen, beforeHyphen, pyIntOpt, strToNat?, digitVal, periodCell,
      pyStr, hyphenHead, List.findIdx?_cons, List.getD, hiso, List.filter_map,
      Function.comp_def, valEqStr, beq_self_eq_true, List.filter_true]

/-- Claim C7. The table stored by `add_iso_to_table` under
`tableName + "_mapped"` has at most as many rows as the input table, with
equality exactly when every native `Country code` value occurs among the
crosswalk's `Location code` keys (inner-join semantics); the crosswalk is
assumed key-unique, as the spec's Crosswalk data model states. -/
theorem c7_join_rowcount (s : InputDB) (tn : String) (input xw : Frame)
    (s2 : InputDB) (m : Frame)
    (hin : s.db tn = some input)
    (hxw : get_un_iso_map s.db = some xw)
    (hnd : (xw.rows.map fun rr => cellAt xw.cols rr "Location code").Nodup)
    (hrun : add_iso_to_table s tn = some s2)
    (hm : s2.db (tn ++ "_mapped") = some m) :
    m.rows.length ≤ input.rows.length ∧
    (m.rows.length = input.rows.length ↔
      ∀ lr ∈ input.rows,
        cellAt input.cols lr "Country code"
          ∈ xw.rows.map fun rr => cellAt xw.cols rr "Location code") := by
  have hq : db_query s.db tn "" "" "*" = some input := by simp [db_query, hin]
  rw [add_iso_to_table, hxw] at hrun
  simp only [Option.some_bind, hq] at hrun
  by_cases hcc : input.cols.contains "Country code" = true
  · rw [if_pos hcc] at hrun
    have hs2 := Option.some.inj hrun
    subst hs2
    simp only at hm
    rw [if_true] at hm
    have hmm := Option.some.inj hm
    have hlen : m.rows.length
        = (innerMerge input xw "Country code" "Location code").rows.length := by
      rw [← hmm]
      by_cases hidx :
          ((innerMerge input xw "Country code" "Location code").cols.map
            renameIsoCol).contains "Index" = true
      · rw [if_pos hidx, dropColumn_rows_length]
      · rw [if_neg hidx]
    rw [hlen]
    exact mergeLenBounds input.rows xw.rows
      (fun lr => cellAt input.cols lr "Country code")
      (fun rr => cellAt xw.cols rr "Location code") hnd
  · rw [if_neg hcc] at hrun
    exact absurd hrun (by simp)

/-- Claim C7 (witness). Concrete instance of `c7_join_rowcount`: a two-row
input table whose second native code (4) has no crosswalk entry, so the
mapped table has 1 < 2 rows and the equality side of the iff is false. -/
theorem c7_join_rowcount_witness :
    (⟨["Country code", "1950-1955", "Location code", "iso3"],
      [[Value.num 496, Value.num 20, Value.num 496, Value.str "MNG"]]⟩ : Frame).rows.length
      ≤ (⟨["Country code", "1950-1955"],
          [[Value.num 496, Value.num 20], [Value.num 4, Value.num 30]]⟩ : Frame).rows.length ∧
    ((⟨["Country code", "1950-1955", "Location code", "iso3"],
      [[Value.num 496, Value.num 20, Value.num 496, Value.str "MNG"]]⟩ : Frame).rows.length
      = (⟨["Country code", "1950-1955"],
          [[Value.num 496, Value.num 20], [Value.num 4, Value.num 30]]⟩ : Frame).rows.length ↔
      ∀ lr ∈ (⟨["Country code", "1950-1955"],
          [[Value.num 496, Value.num 20], [Value.num 4, Value.num 30]]⟩ : Frame).rows,
        cellAt (⟨["Country code", "1950-1955"],
          [[Value.num 496, Value.num 20], [Value.num 4, Value.num 30]]⟩ : Frame).cols lr
            "Country code"
          ∈ (⟨["Location code", "ISO3 Alpha-code"],
              [[Value.num 496, Value.str "MNG"]]⟩ : Frame).rows.map fun rr =>
              cellAt (⟨["Location code", "ISO3 Alpha-code"],
                [[Value.num 496, Value.str "MNG"]]⟩ : Frame).cols rr "Location code") :=
  c7_join_rowcount
    ⟨mkDB2 "un_iso3_map"
        ⟨["Location code", "ISO3 Alpha-code"], [[Value.num 496, Value.str "MNG"]]⟩
        "crude_birth_rate"
        ⟨["Country code", "1950-1955"],
         [[Value.num 496, Value.num 20], [Value.num 4, Value.num 30]]⟩, none⟩
    "crude_birth_rate"
    ⟨["Country code", "1950-1955"],
     [[Value.num 496, Value.num 20], [Value.num 4, Value.num 30]]⟩
    ⟨["Location code", "ISO3 Alpha-code"], [[Value.num 496, Value.str "MNG"]]⟩
    ⟨fun n => if n = "crude_birth_rate" ++ "_mapped" then
        some ⟨["Country code", "1950-1955", "Location code", "iso3"],
              [[Value.num 496, Value.num 20, Value.num 496, Value.str "MNG"]]⟩
      else
        mkDB2 "un_iso3_map"
          ⟨["Location code", "ISO3 Alpha-code"], [[Value.num 496, Value.str "MNG"]]⟩
          "crude_birth_rate"
          ⟨["Country code", "1950-1955"],
           [[Value.num 496, Value.num 20], [Value.num 4, Value.num 30]]⟩ n,
     some ⟨["Location code", "ISO3 Alpha-code"], [[Value.num 496, Value.str "MNG"]]⟩⟩
    ⟨["Country code", "1950-1955", "Location code", "iso3"],
     [[Value.num 496, Value.num 20, Value.num 496, Value.str "MNG"]]⟩
    rfl (by decide) (by decide) (by rfl) (by rfl)

/-- Claim C8 (counterexample). The distinct raw labels `1980` and `01980`
both normalize to the key 1980, and no error is reported: the later
column's value (60, giving 0.6) silently overwrites the earlier one. -/
theorem c8_counterexample :
    get_bcg_coverage
      (mkDB "BCG" ⟨["ISO_code", "1980", "01980"],
        [[Value.str "MNG", Value.num 50, Value.num 60]]⟩) "MNG"
    = some [(1980, (60 : ℚ) / 100)] := rfl

/-- Claim C8 (amended). When two distinct raw labels normalize to the same
PeriodKey, the Python dict comprehension silently collapses them, the
later column's value winning; no error condition is reported. -/
theorem c8_amended (a b : String) (v w : ℚ)
    (ha : isDigitStr a = true) (hb : isDigitStr b = true)
    (hne : a ≠ b) (hk : pyInt b = pyInt a) :
    get_bcg_coverage (mkDB "BCG" ⟨[a, b], [[Value.num v, Value.num w]]⟩) ""
    = some [(pyInt a, w / 100)] := by
  simp [get_bcg_coverage, db_query, mkDB, filterItems, cellAt, bcgPairs, pyDict,
    pyDictInsert, List.filter_cons, List.findIdx?_cons, ha, hb, hne, hk,
    Ne.symm hne]

/-- Claim C8 (amended, witness). Concrete instance of `c8_amended` with
the labels `2000` and `02000`. -/
theorem c8_amended_witness :
    get_bcg_coverage
      (mkDB "BCG" ⟨["2000", "02000"], [[Value.num 10, Value.num 30]]⟩) ""
    = some [(pyInt "2000", (30 : ℚ) / 100)] :=
  c8_amended "2000" "02000" 10 30 (by decide) (by decide) (by decide) (by decide)

/-- Claim C9. Building the crosswalk selects exactly the
`Location code` / `ISO3 Alpha-code` column pair from the locations table,
drops every projected row containing a missing field, and is idempotent:
running the builder again on the resulting state reproduces that state
exactly. -/
theorem c9_un_iso_map (s : InputDB) (t : Frame)
    (ht : s.db "un_iso3_map" = some t)
    (h1 : "Location code" ∈ t.cols)
    (h2 : "ISO3 Alpha-code" ∈ t.cols) :
    ∃ s2 : InputDB, runGetUnIsoMap s = some s2 ∧
      s2.map_df = some
        { cols := ["Location code", "ISO3 Alpha-code"],
          rows := (t.rows.map fun r =>
              [cellAt t.cols r "Location code", cellAt t.cols r "ISO3 Alpha-code"]).filter
            fun r => !(r.any isNullV) } ∧
      runGetUnIsoMap s2 = some s2 := by
  have hm : get_un_iso_map s.db = some
      ⟨["Location code", "ISO3 Alpha-code"],
       (t.rows.map fun r =>
           [cellAt t.cols r "Location code", cellAt t.cols r "ISO3 Alpha-code"]).filter
         fun r => !(r.any isNullV)⟩ := by
    simp [get_un_iso_map, db_query, ht, locCols, h1, h2, dropna]
  refine ⟨⟨s.db, some _⟩, ?_, rfl, ?_⟩
  · simp [runGetUnIsoMap, hm]
  · simp [runGetUnIsoMap, hm]

/-- Claim C9 (witness). Concrete instance of `c9_un_iso_map`: a locations
table with one complete row and two rows each missing one field. -/
theorem c9_un_iso_map_witness :
    ∃ s2 : InputDB,
      runGetUnIsoMap
        ⟨mkDB "un_iso3_map"
          ⟨["Location code", "ISO3 Alpha-code", "Name"],
           [[Value.num 496, Value.str "MNG", Value.str "Mongolia"],
            [Value.null, Value.str "XXX", Value.str "A"],
            [Value.num 4, Value.null, Value.str "B"]]⟩, none⟩ = some s2 ∧
      s2.map_df = some
        { cols := ["Location code", "ISO3 Alpha-code"],
          rows := (([[Value.num 496, Value.str "MNG", Value.str "Mongolia"],
            [Value.null, Value.str "XXX", Value.str "A"],
            [Value.num 4, Value.null, Value.str "B"]] : List (List Value)).map fun r =>
              [cellAt ["Location code", "ISO3 Alpha-code", "Name"] r "Location code",
               cellAt ["Location code", "ISO3 Alpha-code", "Name"] r "ISO3 Alpha-code"]).filter
            fun r => !(r.any isNullV) } ∧
      runGetUnIsoMap s2 = some s2 :=
  c9_un_iso_map
    ⟨mkDB "un_iso3_map"
      ⟨["Location code", "ISO3 Alpha-code", "Name"],
       [[Value.num 496, Value.str "MNG", Value.str "Mongolia"],
        [Value.null, Value.str "XXX", Value.str "A"],
        [Value.num 4, Value.null, Value.str "B"]]⟩, none⟩
    ⟨["Location code", "ISO3 Alpha-code", "Name"],
     [[Value.num 496, Value.str "MNG", Value.str "Mongolia"],
      [Value.null, Value.str "XXX", Value.str "A"],
      [Value.num 4, Value.null, Value.str "B"]]⟩
    rfl (by decide) (by decide)

/-- Claim C10. `db_query` applies the equality filter only when both the
filter column name and the filter value are non-empty strings: supplying a
filter column with an empty value, or a value with an empty column name,
silently returns the full unfiltered table. -/
theorem c10_empty_filter_unfiltered (db : DB) (t fcol v : String) (fr : Frame)
    (h : db t = some fr) :
    db_query db t fcol "" "*" = some fr ∧ db_query db t "" v "*" = some fr := by
  refine ⟨?_, ?_⟩ <;> simp [db_query, h]

/-- Claim C10 (witness). Concrete instance of
`c10_empty_filter_unfiltered`. -/
theorem c10_empty_filter_unfiltered_witness :
    db_query (mkDB "BCG" ⟨["ISO_code"], [[Value.str "MNG"]]⟩) "BCG" "ISO_code" "" "*"
      = some ⟨["ISO_code"], [[Value.str "MNG"]]⟩ ∧
    db_query (mkDB "BCG" ⟨["ISO_code"], [[Value.str "MNG"]]⟩) "BCG" "" "MNG" "*"
      = some ⟨["ISO_code"], [[Value.str "MNG"]]⟩ :=
  c10_empty_filter_unfiltered _ "BCG" "ISO_code" "MNG" _ rfl
